import Mathlib

/-!
Verification of `combine_pdfs.py`, a command-line tool that merges every
PDF file of a directory into one output file.

The script is embedded shallowly:

* a directory entry becomes an `Entry` (name, kind, modification time,
  whether `PdfMerger.append` succeeds on it, and its page content);
* `get_pdf_files` (source lines 23-47) becomes a function from the state of
  the `--directory` path to `Except PyError (List Entry)`;
* the three sort modes of `main` (lines 119-128) become `sortFiles`;
* `combine_pdfs` (lines 50-75) becomes a pure function producing the
  accumulated document, the warning lines, the bytes left on disk by
  `merger.write`, and the printed lines;
* `main` (lines 78-135) and the module-level import guard (lines 15-20)
  become `main` and `runProgram`, yielding a `RunResult` with the exit
  code and the two output streams.

Python strings are modelled over their character lists; `str.isdigit`,
`str.isalnum` and `str.lower` are taken at their ASCII meaning, which
covers every file name appearing in the theorems below.
-/

namespace CombinePdfs

/-- Sort mode selected with the command-line flag `--sort` (alias `-s`). -/
inductive SortMode
  | name
  | numeric
  | date
deriving DecidableEq, Repr

/-- Kind of a directory entry: a regular file, a subdirectory, or anything
else (socket, fifo, ...).  `pathlib.Path.glob` matches names only and does
not look at the kind. -/
inductive EntryKind
  | regular
  | directory
  | other
deriving DecidableEq, Repr

/-- A directory entry as the script observes it.  `mtime` models
`stat().st_mtime`, `readable` models whether `PdfMerger.append` succeeds on
the entry (it fails on corrupt files and on non-files), `content` the page
content `merger.append` would add. -/
structure Entry where
  name : String
  kind : EntryKind
  mtime : Nat
  readable : Bool
  content : List Nat
deriving DecidableEq, Repr

/-- State of the path passed as `--directory`: absent, present but not a
directory, or a directory with the given entries (in raw `scandir` order). -/
inductive Dir
  | missing
  | file
  | dir (entries : List Entry)
deriving DecidableEq, Repr

/-- Index of the last '.' in a character list, if any (Python
`str.rfind('.')` restricted to a found result). -/
def lastDotIdx : List Char → Option Nat
  | [] => none
  | c :: cs =>
    match lastDotIdx cs with
    | some i => some (i + 1)
    | none => if c = '.' then some 0 else none

/-- `pathlib.PurePath.stem`: the name without its last suffix.  A suffix
exists exactly when the last dot is neither the first nor the last
character of the name. -/
def stem (n : String) : String :=
  match lastDotIdx n.data with
  | some i =>
    if 0 < i ∧ i + 1 < n.data.length then String.mk (n.data.take i) else n
  | none => n

/-- `str.isalnum` at its ASCII meaning. -/
def pyIsAlnum (c : Char) : Bool := c.isAlpha || c.isDigit

/-- A value of the Python sort key list built on lines 121-124: `int(c)`
for a digit character, `c.lower()` (a one-character string) otherwise. -/
inductive PyVal
  | intv (n : Nat)
  | strv (s : String)
deriving DecidableEq, Repr

/-- The numeric-mode key of lines 121-124: keep the alphanumeric characters
of the stem and map each digit character to its integer value and every
other character to its lower-case one-character string.  The key is built
per character, not per maximal digit run. -/
def numericKey (s : String) : List PyVal :=
  (s.data.filter pyIsAlnum).map fun c =>
    if c.isDigit then .intv (c.toNat - '0'.toNat) else .strv (String.mk [c.toLower])

/-- Three-way comparison on `Nat` by `<`. -/
def natCmp (a b : Nat) : Ordering :=
  if a < b then .lt else if b < a then .gt else .eq

/-- Code-point lexicographic `<` on character lists: how Python compares
strings. -/
def charListLt : List Char → List Char → Bool
  | _, [] => false
  | [], _ :: _ => true
  | a :: as, b :: bs =>
    if a < b then true else if b < a then false else charListLt as bs

/-- Python `<` on strings. -/
def strLt (a b : String) : Bool := charListLt a.data b.data

/-- Three-way comparison on `String` by the code-point order. -/
def strCmp (a b : String) : Ordering :=
  if strLt a b then .lt else if strLt b a then .gt else .eq

/-- Python comparison of two key elements: int with int and str with str
compare normally; comparing an int with a str raises `TypeError`, modelled
as `Except.error ()`. -/
def pyValCmp : PyVal → PyVal → Except Unit Ordering
  | .intv a, .intv b => .ok (natCmp a b)
  | .strv a, .strv b => .ok (strCmp a b)
  | .intv _, .strv _ => .error ()
  | .strv _, .intv _ => .error ()

/-- Python list comparison: elementwise, deciding at the first position
whose elements differ; a shorter list that is a leading part of the longer
one is smaller.  `TypeError` at the deciding position propagates. -/
def pyListCmp : List PyVal → List PyVal → Except Unit Ordering
  | [], [] => .ok .eq
  | [], _ :: _ => .ok .lt
  | _ :: _, [] => .ok .gt
  | a :: as, b :: bs =>
    match pyValCmp a b with
    | .error e => .error e
    | .ok .eq => pyListCmp as bs
    | .ok .lt => .ok .lt
    | .ok .gt => .ok .gt

/-- Stable insertion used to model Python `sorted`: `x` is placed before
the first element that is not strictly below it, so elements that compare
equal keep their original relative order (CPython's sort is stable). -/
def pyInsert (lt : α → α → Bool) (x : α) : List α → List α
  | [] => [x]
  | y :: ys => if lt y x then y :: pyInsert lt x ys else x :: y :: ys

/-- Model of Python `sorted` under the strict comparison `lt`: for a strict
weak order this is the unique stable sorted permutation of the input, which
is what CPython's stable sort returns. -/
def pySorted (lt : α → α → Bool) (l : List α) : List α :=
  l.foldr (pyInsert lt) []

/-- `fnmatch` test for the pattern `*.pdf`: the name ends with `.pdf`
(case-sensitive, as `pathlib` glob on a POSIX filesystem).  Only the name
is tested; the kind of the entry is not. -/
def matchesPdfGlob (n : String) : Bool :=
  decide (n.data.reverse.take 4 = ['f', 'd', 'p', '.'])

/-- Comparison `sorted` applies to `pathlib.Path` objects of one directory:
code-point order of the names. -/
def nameLt (a b : Entry) : Bool := strLt a.name b.name

/-- `sorted([f for f in directory_path.glob("*.pdf")])` (line 42): the
entries whose name matches `*.pdf`, in alphabetical order. -/
def globSorted (entries : List Entry) : List Entry :=
  pySorted nameLt (entries.filter fun e => matchesPdfGlob e.name)

/-- The exceptions the script can raise before the write step:
`FileNotFoundError` (line 36), `NotADirectoryError` (line 39),
`ValueError` (line 45, the "no PDF files" case), and the `TypeError` a
numeric-mode key comparison can raise. -/
inductive PyError
  | fileNotFound
  | notADirectoryErr
  | valueError
  | typeError
deriving DecidableEq, Repr

/-- The message of each exception, as formatted on lines 36, 39 and 45. -/
def pyErrMsg (directory : String) : PyError → String
  | .fileNotFound => "Directory not found: " ++ directory
  | .notADirectoryErr => "Path is not a directory: " ++ directory
  | .valueError => "No PDF files found in directory: " ++ directory
  | .typeError => "'<' not supported between instances of 'str' and 'int'"

/-- `get_pdf_files` (lines 23-47): fail if the path is absent or not a
directory, glob `*.pdf`, sort alphabetically, fail if nothing matched. -/
def get_pdf_files : Dir → Except PyError (List Entry)
  | .missing => .error .fileNotFound
  | .file => .error .notADirectoryErr
  | .dir es =>
    let pdfs := globSorted es
    if pdfs.isEmpty then .error .valueError else .ok pdfs

/-- The numeric-mode sort key of an entry: `numericKey` of the stem of its
name. -/
def entryKey (e : Entry) : List PyVal := numericKey (stem e.name)

/-- Whether a key comparison succeeded. -/
def exceptOk : Except Unit Ordering → Bool
  | .ok _ => true
  | .error _ => false

/-- Strict `<` on numeric keys, defined where the comparison succeeds. -/
def numericLt (a b : Entry) : Bool :=
  match pyListCmp (entryKey a) (entryKey b) with
  | .ok .lt => true
  | .ok .eq => false
  | .ok .gt => false
  | .error _ => false

/-- Every pair of numeric keys of the list is comparable. -/
def allPairsComparable (files : List Entry) : Bool :=
  files.all fun a => files.all fun b => exceptOk (pyListCmp (entryKey a) (entryKey b))

/-- `sorted(pdf_files, key=...)` of lines 121-124.  CPython raises
`TypeError` as soon as the sort compares two keys `<` does not accept;
when every pair of keys is comparable no comparison can fail and the
stable sort returns the stable sorted permutation.  The model errors
whenever some pair of keys is incomparable, which is exact when all pairs
are comparable and for lists of at most two elements, where the single
pair is always compared; the theorems below only use it there. -/
def numericSorted (files : List Entry) : Except PyError (List Entry) :=
  if allPairsComparable files then .ok (pySorted numericLt files)
  else .error .typeError

/-- Strict `<` on modification times, the key of line 127. -/
def dateLt (a b : Entry) : Bool := decide (a.mtime < b.mtime)

/-- Lines 119-128: numeric and date mode re-sort the list; name mode keeps
the alphabetical order produced by `get_pdf_files`. -/
def sortFiles : SortMode → List Entry → Except PyError (List Entry)
  | .name, files => .ok files
  | .numeric, files => numericSorted files
  | .date, files => .ok (pySorted dateLt files)

/-- The warning line printed on line 67 for a file `merger.append` refuses.
The exception text is abstracted to "unreadable". -/
def warnLine (e : Entry) : String :=
  "  Warning: Could not add " ++ e.name ++ ": unreadable"

/-- One iteration of the loop of lines 62-68, acting on the pair
(accumulated pages, warning lines so far): append the pages on success,
append one warning line and continue on failure. -/
def combineStep (acc : List Nat × List String) (e : Entry) : List Nat × List String :=
  if e.readable then (acc.1 ++ e.content, acc.2) else (acc.1, acc.2 ++ [warnLine e])

/-- The stdout lines the loop prints for one entry: the "Adding" line of
line 63, followed by the warning of line 67 when the append fails. -/
def fileLines (e : Entry) : List String :=
  if e.readable then ["  Adding: " ++ e.name] else ["  Adding: " ++ e.name, warnLine e]

/-- `merger.write(output_file)` (line 72) writes directly to the requested
path: with `failAfter = none` the full document lands on disk and the call
returns; with `failAfter = some k` the stream fails after `k` pages (e.g.
disk full), raising and leaving the written prefix behind. -/
def directWrite (doc : List Nat) : Option Nat → Option (List Nat) × Bool
  | none => (some doc, false)
  | some k => (some (doc.take k), true)

/-- Result of `combine_pdfs`: the accumulated document, the warning lines,
what the write left on disk at the output path, whether the write raised,
the count printed by the success line of line 75 (if reached), and every
stdout line in order. -/
structure CombineResult where
  doc : List Nat
  warnings : List String
  written : Option (List Nat)
  writeFailed : Bool
  successLineCount : Option Nat
  stdoutLines : List String
deriving DecidableEq, Repr

/-- `combine_pdfs` (lines 50-75): append each file in order, skipping
unreadable ones with a warning, then write the accumulated document to the
output path and, if the write returned, print the success line carrying
`len(pdf_files)` - the length of the input list. -/
def combine_pdfs (files : List Entry) (output : String) (failAfter : Option Nat) :
    CombineResult :=
  let acc := files.foldl combineStep ([], [])
  let w := directWrite acc.1 failAfter
  { doc := acc.1
    warnings := acc.2
    written := w.1
    writeFailed := w.2
    successLineCount := if w.2 then none else some files.length
    stdoutLines :=
      ("Combining " ++ toString files.length ++ " PDF files...")
        :: (files.map fileLines).flatten
        ++ ["", "Writing combined PDF to: " ++ output]
        ++ (if w.2 then [] else
            ["✓ Successfully combined " ++ toString files.length ++
              " PDF files into " ++ output]) }

/-- One run configuration: the string passed as `--directory` and the state
of that path, the sort mode, the `--output` path, the failure injection for
the final write, and the message of the exception a failing write raises. -/
structure Config where
  directoryPath : String
  directory : Dir
  sortMode : SortMode
  output : String
  failAfter : Option Nat
  writeErrMsg : String
deriving DecidableEq, Repr

/-- Observable outcome of a run: exit status, both output streams, the
warning lines among stdout, the count carried by the success line (if
printed), the content left at the output path (`none` = never created),
and whether arguments were parsed / the filesystem was touched. -/
structure RunResult where
  exitCode : Nat
  stdoutLines : List String
  stderrLines : List String
  warnings : List String
  successLineCount : Option Nat
  outputFile : Option (List Nat)
  parsedArgs : Bool
  fsAccessed : Bool
deriving DecidableEq, Repr

/-- Lines 116-128: list the directory, then sort by the chosen mode. -/
def sortPipeline (cfg : Config) : Except PyError (List Entry) :=
  match get_pdf_files cfg.directory with
  | .error e => .error e
  | .ok files => sortFiles cfg.sortMode files

/-- `main` (lines 78-135) after a successful import and argument parse:
run the pipeline; any exception is caught on line 133, printed as the
single line `Error: ...` on stderr, and turned into exit status 1; on
success the exit status is 0 and stderr stays empty. -/
def main (cfg : Config) : RunResult :=
  match sortPipeline cfg with
  | .error e =>
      { exitCode := 1
        stdoutLines := []
        stderrLines := ["Error: " ++ pyErrMsg cfg.directoryPath e]
        warnings := []
        successLineCount := none
        outputFile := none
        parsedArgs := true
        fsAccessed := true }
  | .ok files =>
      let c := combine_pdfs files cfg.output cfg.failAfter
      if c.writeFailed then
        { exitCode := 1
          stdoutLines := c.stdoutLines
          stderrLines := ["Error: " ++ cfg.writeErrMsg]
          warnings := c.warnings
          successLineCount := none
          outputFile := c.written
          parsedArgs := true
          fsAccessed := true }
      else
        { exitCode := 0
          stdoutLines := c.stdoutLines
          stderrLines := []
          warnings := c.warnings
          successLineCount := c.successLineCount
          outputFile := c.written
          parsedArgs := true
          fsAccessed := true }

/-- The whole script: the module-level import guard of lines 15-20 runs
before `main` is ever entered; when `PyPDF2` cannot be imported the guard
prints its two lines with plain `print` - standard output - and exits with
status 1 before any argument is parsed or the filesystem is touched. -/
def runProgram (pypdf2Installed : Bool) (cfg : Config) : RunResult :=
  if pypdf2Installed then main cfg
  else
    { exitCode := 1
      stdoutLines := ["Error: PyPDF2 is not installed.",
                      "Please install it using: pip install PyPDF2"]
      stderrLines := []
      warnings := []
      successLineCount := none
      outputFile := none
      parsedArgs := false
      fsAccessed := false }

/-- Whether the whole pipeline of one `main` run succeeds: the directory
listing and the sort returned normally and the final write did not fail. -/
def pipelineOk (cfg : Config) : Bool :=
  (match sortPipeline cfg with
   | .ok _ => true
   | .error _ => false) && cfg.failAfter.isNone

/-- A regular, readable entry with the given name, time and content. -/
def mkFile (n : String) (t : Nat) (c : List Nat) : Entry :=
  { name := n, kind := .regular, mtime := t, readable := true, content := c }

/-- A regular entry `merger.append` rejects (corrupt or unreadable). -/
def mkBadFile (n : String) (t : Nat) : Entry :=
  { name := n, kind := .regular, mtime := t, readable := false, content := [] }

/-- Fixture: a run on an existing directory that contains no PDF file. -/
def cfgEmpty : Config :=
  { directoryPath := ".", directory := .dir [], sortMode := .numeric,
    output := "combined_output.pdf", failAfter := none, writeErrMsg := "io error" }

/-- Fixture: one two-page file, name mode, and a final write that fails
after one page (disk full). -/
def cfgPartialWrite : Config :=
  { directoryPath := ".", directory := .dir [mkFile "x.pdf" 5 [7, 8]],
    sortMode := .name, output := "out.pdf", failAfter := some 1,
    writeErrMsg := "No space left on device" }

/-- Fixture: numeric mode on a directory holding `1.pdf` and `a.pdf`, whose
numeric keys are an integer and a string. -/
def cfgMixedNames : Config :=
  { directoryPath := ".", directory := .dir [mkFile "a.pdf" 0 [2], mkFile "1.pdf" 0 [1]],
    sortMode := .numeric, output := "combined_output.pdf", failAfter := none,
    writeErrMsg := "io error" }

/-! ### Properties of the stable-sort model -/

theorem mem_pyInsert (lt : α → α → Bool) (x z : α) :
    ∀ l : List α, z ∈ pyInsert lt x l ↔ z = x ∨ z ∈ l
  | [] => by simp [pyInsert]
  | y :: ys => by
    cases hlt : lt y x with
    | true =>
      simp only [pyInsert, hlt, if_pos, List.mem_cons, mem_pyInsert lt x z ys]
      tauto
    | false =>
      simp [pyInsert, hlt]

theorem pyInsert_perm (lt : α → α → Bool) (x : α) :
    ∀ l : List α, List.Perm (pyInsert lt x l) (x :: l)
  | [] => List.Perm.refl _
  | y :: ys => by
    cases hlt : lt y x with
    | true =>
      simp only [pyInsert, hlt, if_pos]
      exact ((pyInsert_perm lt x ys).cons y).trans (List.Perm.swap x y ys)
    | false => simp [pyInsert, hlt]

theorem pySorted_perm (lt : α → α → Bool) : ∀ l : List α, List.Perm (pySorted lt l) l
  | [] => List.Perm.refl _
  | x :: xs =>
    (pyInsert_perm lt x (pySorted lt xs)).trans ((pySorted_perm lt xs).cons x)

theorem pyInsert_pairwise (lt : α → α → Bool)
    (hasymm : ∀ a b, lt a b = true → lt b a = false)
    (hswo : ∀ a b c, lt a c = true → lt a b = true ∨ lt b c = true)
    (x : α) :
    ∀ l : List α, l.Pairwise (fun a b => lt b a = false) →
      (pyInsert lt x l).Pairwise (fun a b => lt b a = false)
  | [], _ => by simp [pyInsert]
  | y :: ys, h => by
    rcases List.pairwise_cons.mp h with ⟨hy, hys⟩
    cases hlt : lt y x with
    | true =>
      simp only [pyInsert, hlt, if_pos]
      refine List.pairwise_cons.mpr ⟨?_, pyInsert_pairwise lt hasymm hswo x ys hys⟩
      intro z hz
      rcases (mem_pyInsert lt x z ys).mp hz with rfl | hz'
      · exact hasymm y z hlt
      · exact hy z hz'
    | false =>
      simp only [pyInsert, hlt]
      refine List.pairwise_cons.mpr ⟨?_, h⟩
      intro z hz
      rcases List.mem_cons.mp hz with rfl | hz'
      · exact hlt
      · cases hzx : lt z x with
        | false => rfl
        | true =>
          rcases hswo z y x hzx with h1 | h1
          · rw [hy z hz'] at h1
            exact absurd h1 (by simp)
          · rw [hlt] at h1
            exact absurd h1 (by simp)

theorem pySorted_pairwise (lt : α → α → Bool)
    (hasymm : ∀ a b, lt a b = true → lt b a = false)
    (hswo : ∀ a b c, lt a c = true → lt a b = true ∨ lt b c = true) :
    ∀ l : List α, (pySorted lt l).Pairwise (fun a b => lt b a = false)
  | [] => List.Pairwise.nil
  | x :: xs =>
    pyInsert_pairwise lt hasymm hswo x (pySorted lt xs)
      (pySorted_pairwise lt hasymm hswo xs)

theorem pyInsert_filter (lt : α → α → Bool) (p : α → Bool)
    (hp : ∀ a b, p a = true → p b = true → lt a b = false)
    (x : α) :
    ∀ l : List α, (pyInsert lt x l).filter p =
      if p x then x :: l.filter p else l.filter p
  | [] => by
    cases hpx : p x <;> simp [pyInsert, List.filter, hpx]
  | y :: ys => by
    cases hlt : lt y x with
    | true =>
      have hy : p y = true → p x = true → False := by
        intro h1 h2
        rw [hp y x h1 h2] at hlt
        exact absurd hlt (by simp)
      cases hpx : p x with
      | true =>
        have hpy : p y = false := by
          cases hpy : p y with
          | false => rfl
          | true => exact absurd (hy hpy hpx) (by simp)
        simp [pyInsert, hlt, List.filter_cons, hpy,
          pyInsert_filter lt p hp x ys, hpx]
      | false =>
        cases hpy : p y <;>
          simp [pyInsert, hlt, List.filter_cons, hpy,
            pyInsert_filter lt p hp x ys, hpx]
    | false =>
      cases hpx : p x <;> cases hpy : p y <;>
        simp [pyInsert, hlt, List.filter_cons, hpx, hpy]

theorem pySorted_filter (lt : α → α → Bool) (p : α → Bool)
    (hp : ∀ a b, p a = true → p b = true → lt a b = false) :
    ∀ l : List α, (pySorted lt l).filter p = l.filter p
  | [] => rfl
  | x :: xs => by
    show (pyInsert lt x (pySorted lt xs)).filter p = _
    rw [pyInsert_filter lt p hp x (pySorted lt xs), pySorted_filter lt p hp xs]
    cases hpx : p x <;> simp [List.filter_cons, hpx]

/-! ### Order facts for the code-point comparison -/

theorem charListLt_asymm :
    ∀ as bs : List Char, charListLt as bs = true → charListLt bs as = false
  | _ :: _, [], h => by simp [charListLt] at h
  | [], [], h => by simp [charListLt] at h
  | [], _ :: _, _ => by simp [charListLt]
  | a :: as, b :: bs, h => by
    rcases lt_trichotomy a b with hab | hab | hab
    · simp [charListLt, hab, lt_asymm hab, not_lt_of_lt hab]
    · subst hab
      simp only [charListLt, lt_irrefl, if_false] at h ⊢
      exact charListLt_asymm as bs h
    · simp [charListLt, hab, lt_asymm hab, not_lt_of_lt hab] at h

theorem charListLt_trans :
    ∀ as bs cs : List Char, charListLt as bs = true → charListLt bs cs = true →
      charListLt as cs = true
  | _, _ :: _, [], _, h2 => by simp [charListLt] at h2
  | _, [], [], _, h2 => by simp [charListLt] at h2
  | _, [], _ :: _, h1, _ => by simp [charListLt] at h1
  | [], _ :: _, _ :: _, _, _ => by simp [charListLt]
  | a :: as, b :: bs, c :: cs, h1, h2 => by
    rcases lt_trichotomy a b with hab | hab | hab
    · rcases lt_trichotomy b c with hbc | hbc | hbc
      · simp [charListLt, lt_trans hab hbc]
      · subst hbc
        simp [charListLt, hab]
      · simp [charListLt, hbc, lt_asymm hbc, not_lt_of_lt hbc] at h2
    · subst hab
      rcases lt_trichotomy a c with hac | hac | hac
      · simp [charListLt, hac]
      · subst hac
        simp only [charListLt, lt_irrefl, if_false] at h1 h2 ⊢
        exact charListLt_trans as bs cs h1 h2
      · simp [charListLt, hac, lt_asymm hac, not_lt_of_lt hac] at h2
    · simp [charListLt, hab, lt_asymm hab, not_lt_of_lt hab] at h1

theorem charListLt_total_or_eq :
    ∀ as bs : List Char, charListLt as bs = true ∨ charListLt bs as = true ∨ as = bs
  | [], [] => Or.inr (Or.inr rfl)
  | [], _ :: _ => Or.inl (by simp [charListLt])
  | _ :: _, [] => Or.inr (Or.inl (by simp [charListLt]))
  | a :: as, b :: bs => by
    rcases lt_trichotomy a b with hab | hab | hab
    · exact Or.inl (by simp [charListLt, hab])
    · subst hab
      rcases charListLt_total_or_eq as bs with h | h | h
      · exact Or.inl (by simp [charListLt, h])
      · exact Or.inr (Or.inl (by simp [charListLt, h]))
      · exact Or.inr (Or.inr (by rw [h]))
    · exact Or.inr (Or.inl (by simp [charListLt, hab]))

theorem charListLt_swo (as bs cs : List Char) (h : charListLt as cs = true) :
    charListLt as bs = true ∨ charListLt bs cs = true := by
  rcases charListLt_total_or_eq as bs with h1 | h1 | h1
  · exact Or.inl h1
  · exact Or.inr (charListLt_trans bs as cs h1 h)
  · subst h1
    exact Or.inr h

theorem nameLt_asymm (a b : Entry) (h : nameLt a b = true) : nameLt b a = false :=
  charListLt_asymm a.name.data b.name.data h

theorem nameLt_swo (a b c : Entry) (h : nameLt a c = true) :
    nameLt a b = true ∨ nameLt b c = true :=
  charListLt_swo a.name.data b.name.data c.name.data h

theorem dateLt_asymm (a b : Entry) (h : dateLt a b = true) : dateLt b a = false := by
  simp only [dateLt, decide_eq_true_eq] at h
  simp only [dateLt, decide_eq_false_iff_not]
  omega

theorem dateLt_swo (a b c : Entry) (h : dateLt a c = true) :
    dateLt a b = true ∨ dateLt b c = true := by
  simp only [dateLt, decide_eq_true_eq] at h ⊢
  omega

theorem dateLt_eq_false_of_mtime_eq (t : Nat) (a b : Entry)
    (ha : decide (a.mtime = t) = true) (hb : decide (b.mtime = t) = true) :
    dateLt a b = false := by
  simp only [decide_eq_true_eq] at ha hb
  simp only [dateLt, decide_eq_false_iff_not]
  omega

/-! ### The merge loop on readable files -/

theorem foldl_combineStep_readable (d : List Nat) (w : List String) :
    ∀ l : List Entry, (∀ e ∈ l, e.readable = true) →
      l.foldl combineStep (d, w) = (d ++ (l.map Entry.content).flatten, w)
  | [], _ => by simp
  | e :: es, h => by
    have he : e.readable = true := h e (by simp)
    have hes : ∀ x ∈ es, x.readable = true := fun x hx => h x (by simp [hx])
    simp only [List.foldl_cons, combineStep, he, if_pos]
    rw [foldl_combineStep_readable (d ++ e.content) w es hes]
    simp

/-! ### The claims -/

/-- Claim C1, evaluated on the code: numeric mode does NOT order `a1, a2,
a10`.  Because the key of lines 121-124 is built per character rather than
per maximal digit run, the key of `a10` is `[a, 1, 0]` and compares below
the key `[a, 2]` of `a2`, so numeric mode returns `a1, a10, a2`;
`file10` sorts before `file2`; and the bare numerals the comment on line
120 promises to order `1, 2, 10` come out `1, 10, 2`. -/
theorem C1_numeric_order_eval :
    sortFiles .numeric
        [mkFile "a1.pdf" 0 [1], mkFile "a2.pdf" 0 [2], mkFile "a10.pdf" 0 [3]] =
      .ok [mkFile "a1.pdf" 0 [1], mkFile "a10.pdf" 0 [3], mkFile "a2.pdf" 0 [2]] ∧
    sortFiles .numeric [mkFile "file2.pdf" 0 [2], mkFile "file10.pdf" 0 [10]] =
      .ok [mkFile "file10.pdf" 0 [10], mkFile "file2.pdf" 0 [2]] ∧
    sortFiles .numeric
        [mkFile "1.pdf" 0 [1], mkFile "10.pdf" 0 [10], mkFile "2.pdf" 0 [2]] =
      .ok [mkFile "1.pdf" 0 [1], mkFile "10.pdf" 0 [10], mkFile "2.pdf" 0 [2]] ∧
    numericKey (stem "a10.pdf") = [.strv "a", .intv 1, .intv 0] :=
  ⟨rfl, rfl, rfl, rfl⟩

/-- Claim C2, counterexample: with one unreadable file among two listed
ones, the success line of line 75 still reports `len(pdf_files) = 2`, not
the one file actually combined. -/
theorem C2_count_cx :
    (combine_pdfs [mkBadFile "b.pdf" 0, mkFile "g.pdf" 0 [5]] "out.pdf" none).successLineCount
        = some 2 ∧
    (combine_pdfs [mkBadFile "b.pdf" 0, mkFile "g.pdf" 0 [5]] "out.pdf" none).warnings.length
        = 1 ∧
    (combine_pdfs [mkBadFile "b.pdf" 0, mkFile "g.pdf" 0 [5]] "out.pdf" none).successLineCount
        ≠ some 1 :=
  ⟨rfl, rfl, by decide⟩

/-- Claim C2 as amended: whenever the final write returns, the success
message reports the length of the listed file list - all N files - no
matter how many were skipped as unreadable. -/
theorem C2_reported_count (files : List Entry) (output : String) :
    (combine_pdfs files output none).successLineCount = some files.length ∧
    (combine_pdfs files output none).writeFailed = false :=
  ⟨rfl, rfl⟩

/-- Claim C3, counterexample: a write failing after one of two pages exits
with status 1, but a truncated one-page file remains at the requested
output path - the write is direct, not temp-file-then-rename. -/
theorem C3_write_cx :
    (main cfgPartialWrite).exitCode = 1 ∧
    (main cfgPartialWrite).outputFile = some [7] ∧
    (main cfgPartialWrite).outputFile ≠ none ∧
    [7] ≠ [7, 8] :=
  ⟨rfl, rfl, by decide, by decide⟩

/-- Claim C3 as amended: when the final write fails, the error does
propagate and the run fails with exit status 1 and the message on stderr;
but the write goes directly to the requested output path, so the prefix
written before the failure - possibly truncated or zero-byte - remains
there. -/
theorem C3_write_direct (cfg : Config) (files : List Entry) (k : Nat)
    (hok : sortPipeline cfg = .ok files) (hfail : cfg.failAfter = some k) :
    (main cfg).exitCode = 1 ∧
    (main cfg).stderrLines = ["Error: " ++ cfg.writeErrMsg] ∧
    (main cfg).outputFile = some ((files.foldl combineStep ([], [])).1.take k) := by
  simp [main, hok, combine_pdfs, directWrite, hfail]

theorem C3_write_direct_witness :
    sortPipeline cfgPartialWrite = .ok [mkFile "x.pdf" 5 [7, 8]] ∧
    cfgPartialWrite.failAfter = some 1 ∧
    (main cfgPartialWrite).exitCode = 1 ∧
    (main cfgPartialWrite).stderrLines = ["Error: " ++ cfgPartialWrite.writeErrMsg] ∧
    (main cfgPartialWrite).outputFile =
      some (([mkFile "x.pdf" 5 [7, 8]].foldl combineStep ([], [])).1.take 1) := by
  have h := C3_write_direct cfgPartialWrite [mkFile "x.pdf" 5 [7, 8]] 1 rfl rfl
  exact ⟨rfl, rfl, h.1, h.2.1, h.2.2⟩

/-- Claim C4, evaluated on the code: in numeric mode the key of `1.pdf` is
the integer list `[1]` and the key of `a.pdf` the string list `[a]`;
comparing them raises `TypeError`, the sort is not total, and the whole
run exits with status 1.  Name and date mode succeed on the same list. -/
theorem C4_numeric_typeerror_eval :
    pyListCmp (entryKey (mkFile "1.pdf" 0 [1])) (entryKey (mkFile "a.pdf" 0 [2])) =
      .error () ∧
    sortFiles .numeric [mkFile "1.pdf" 0 [1], mkFile "a.pdf" 0 [2]] =
      .error .typeError ∧
    (main cfgMixedNames).exitCode = 1 ∧
    (main cfgMixedNames).stderrLines =
      ["Error: '<' not supported between instances of 'str' and 'int'"] ∧
    sortFiles .name [mkFile "1.pdf" 0 [1], mkFile "a.pdf" 0 [2]] =
      .ok [mkFile "1.pdf" 0 [1], mkFile "a.pdf" 0 [2]] ∧
    sortFiles .date [mkFile "1.pdf" 0 [1], mkFile "a.pdf" 0 [2]] =
      .ok [mkFile "1.pdf" 0 [1], mkFile "a.pdf" 0 [2]] :=
  ⟨rfl, rfl, rfl, rfl, rfl, rfl⟩

/-- Claim C5: `get_pdf_files` fails with `FileNotFoundError` exactly when
the path does not exist, with `NotADirectoryError` exactly when it exists
but is not a directory, and with `ValueError` - the spec's
`EmptyResultError` - exactly when the glob finds nothing; in that last
case the run exits with status 1 and no output file is created. -/
theorem C5_lister_errors (d : Dir) (cfg : Config) :
    (get_pdf_files d = .error .fileNotFound ↔ d = .missing) ∧
    (get_pdf_files d = .error .notADirectoryErr ↔ d = .file) ∧
    (get_pdf_files d = .error .valueError ↔
      ∃ es, d = .dir es ∧ globSorted es = []) ∧
    (get_pdf_files cfg.directory = .error .valueError →
      (main cfg).exitCode = 1 ∧ (main cfg).outputFile = none) := by
  refine ⟨?_, ?_, ?_, ?_⟩
  · cases d with
    | missing => simp [get_pdf_files]
    | file => simp [get_pdf_files]
    | dir es => cases hglob : (globSorted es).isEmpty <;> simp [get_pdf_files, hglob]
  · cases d with
    | missing => simp [get_pdf_files]
    | file => simp [get_pdf_files]
    | dir es => cases hglob : (globSorted es).isEmpty <;> simp [get_pdf_files, hglob]
  · cases d with
    | missing => simp [get_pdf_files]
    | file => simp [get_pdf_files]
    | dir es => rcases hglob : globSorted es with _ | ⟨a, l⟩ <;> simp [get_pdf_files, hglob]
  · intro h
    have hsp : sortPipeline cfg = .error .valueError := by
      simp [sortPipeline, h]
    simp [main, hsp]

theorem C5_lister_errors_witness :
    get_pdf_files (Dir.dir []) = .error .valueError ∧
    (main cfgEmpty).exitCode = 1 ∧ (main cfgEmpty).outputFile = none := by
  have h := (C5_lister_errors (Dir.dir []) cfgEmpty).2.2.2 rfl
  exact ⟨rfl, h.1, h.2⟩

/-- Claim C6, counterexample: `glob("*.pdf")` matches on the name only, so
a subdirectory called `sub.pdf` is returned by the File Lister even though
it is not a regular file. -/
theorem C6_glob_cx :
    get_pdf_files (.dir [⟨"sub.pdf", .directory, 0, false, []⟩]) =
      .ok [⟨"sub.pdf", .directory, 0, false, []⟩] ∧
    (⟨"sub.pdf", .directory, 0, false, []⟩ : Entry).kind ≠ .regular :=
  ⟨rfl, by simp⟩

/-- Claim C6 as amended: for an existing directory the File Lister returns
exactly the directory entries - of any kind, not only regular files -
whose name ends in `.pdf` (case-sensitive, non-recursive), each exactly
once, ordered alphabetically by name; it errs precisely when no name
matches. -/
theorem C6_glob_listing (entries : List Entry) :
    get_pdf_files (.dir entries) =
      (if (globSorted entries).isEmpty then .error .valueError
       else .ok (globSorted entries)) ∧
    List.Perm (globSorted entries) (entries.filter fun e => matchesPdfGlob e.name) ∧
    (globSorted entries).Pairwise (fun a b => nameLt b a = false) ∧
    ∀ e, e ∈ globSorted entries ↔ e ∈ entries ∧ matchesPdfGlob e.name = true := by
  refine ⟨rfl, pySorted_perm nameLt _, pySorted_pairwise nameLt nameLt_asymm nameLt_swo _, ?_⟩
  intro e
  rw [globSorted, List.Perm.mem_iff (pySorted_perm nameLt _), List.mem_filter]

/-- Claim C7: a single unreadable file among otherwise readable ones
produces exactly one warning line naming that file, the merge continues,
the write succeeds and the success line is printed, and the document
written to disk is the concatenation of the remaining files' content in
their relative order. -/
theorem C7_skip_unreadable (l₁ l₂ : List Entry) (bad : Entry) (output : String)
    (hgood : ∀ e ∈ l₁ ++ l₂, e.readable = true) (hbad : bad.readable = false) :
    (combine_pdfs (l₁ ++ bad :: l₂) output none).warnings = [warnLine bad] ∧
    (combine_pdfs (l₁ ++ bad :: l₂) output none).writeFailed = false ∧
    (combine_pdfs (l₁ ++ bad :: l₂) output none).successLineCount =
      some (l₁ ++ bad :: l₂).length ∧
    (combine_pdfs (l₁ ++ bad :: l₂) output none).written =
      some (((l₁ ++ l₂).map Entry.content).flatten) := by
  have h1 : ∀ e ∈ l₁, e.readable = true := fun e he => hgood e (by simp [he])
  have h2 : ∀ e ∈ l₂, e.readable = true := fun e he => hgood e (by simp [he])
  have hfold : (l₁ ++ bad :: l₂).foldl combineStep ([], []) =
      (((l₁ ++ l₂).map Entry.content).flatten, [warnLine bad]) := by
    rw [List.foldl_append, foldl_combineStep_readable [] [] l₁ h1]
    simp only [List.foldl_cons, combineStep, hbad]
    rw [if_neg (by simp)]
    rw [foldl_combineStep_readable _ _ l₂ h2]
    simp
  simp [combine_pdfs, directWrite, hfold]

theorem C7_skip_unreadable_witness :
    (∀ e ∈ [mkFile "a.pdf" 0 [1]] ++ [mkFile "c.pdf" 0 [3]], e.readable = true) ∧
    (mkBadFile "b.pdf" 0).readable = false ∧
    (combine_pdfs ([mkFile "a.pdf" 0 [1]] ++ mkBadFile "b.pdf" 0 :: [mkFile "c.pdf" 0 [3]])
        "out.pdf" none).warnings = [warnLine (mkBadFile "b.pdf" 0)] ∧
    (combine_pdfs ([mkFile "a.pdf" 0 [1]] ++ mkBadFile "b.pdf" 0 :: [mkFile "c.pdf" 0 [3]])
        "out.pdf" none).written = some [1, 3] := by
  have h := C7_skip_unreadable [mkFile "a.pdf" 0 [1]] [mkFile "c.pdf" 0 [3]]
    (mkBadFile "b.pdf" 0) "out.pdf" (by decide) rfl
  exact ⟨by decide, rfl, h.1, h.2.2.2⟩

/-- Claim C8: a `main` run exits with status 0 exactly when the whole
pipeline (listing, sort, merge and final write) succeeds; every failure
exits with status 1 after exactly one line on standard error - the single
`Error: ...` print of line 134, no stack trace. -/
theorem C8_exit_codes (cfg : Config) :
    ((main cfg).exitCode = 0 ↔ pipelineOk cfg = true) ∧
    ((main cfg).exitCode = 1 ↔ pipelineOk cfg = false) ∧
    (main cfg).stderrLines.length = (if pipelineOk cfg then 0 else 1) := by
  cases hsp : sortPipeline cfg with
  | error e => simp [main, pipelineOk, hsp]
  | ok files =>
    cases hfa : cfg.failAfter with
    | none => simp [main, pipelineOk, hsp, hfa, combine_pdfs, directWrite]
    | some k => simp [main, pipelineOk, hsp, hfa, combine_pdfs, directWrite]

/-- Claim C9: date mode sorts ascending by modification time; the sort is
stable, so entries with equal timestamps keep the relative order of the
input list - the alphabetical order produced by the File Lister. -/
theorem C9_date_sort (files : List Entry) :
    sortFiles .date files = .ok (pySorted dateLt files) ∧
    List.Perm (pySorted dateLt files) files ∧
    (pySorted dateLt files).Pairwise (fun a b => a.mtime ≤ b.mtime) ∧
    ∀ t : Nat, (pySorted dateLt files).filter (fun e => decide (e.mtime = t)) =
      files.filter (fun e => decide (e.mtime = t)) := by
  refine ⟨rfl, pySorted_perm dateLt files, ?_, ?_⟩
  · refine (pySorted_pairwise dateLt dateLt_asymm dateLt_swo files).imp ?_
    intro a b h
    simp only [dateLt, decide_eq_false_iff_not] at h
    omega
  · intro t
    exact pySorted_filter dateLt (fun e => decide (e.mtime = t))
      (dateLt_eq_false_of_mtime_eq t) files

/-- Claim C10: when the `PyPDF2` import fails, the module-level guard
prints its explanation and the install instruction on standard output -
not standard error - and exits with status 1 before any argument is
parsed or the filesystem is touched, for every configuration. -/
theorem C10_import_guard (cfg : Config) :
    runProgram false cfg =
      { exitCode := 1
        stdoutLines := ["Error: PyPDF2 is not installed.",
                        "Please install it using: pip install PyPDF2"]
        stderrLines := []
        warnings := []
        successLineCount := none
        outputFile := none
        parsedArgs := false
        fsAccessed := false } := rfl

end CombinePdfs
